import Mathlib

/-!
Verification of the sonos-player core (src/sonos_player/speakers.py) by a
shallow embedding in Lean.

Modelling conventions, used throughout:

* Python strings are Lean `String`; every string operation the source uses
  (upper-casing, trimming, integer parsing, splitting) is re-implemented on
  `List Char` so that all definitions evaluate by kernel reduction.
* The network is an oracle: each remote SOAP call is an `SCall` event, and an
  environment (`Env`) maps the global call clock and the call to an `Answer`
  (either a raised exception or the returned data).  Each network call
  advances the clock by one tick, as does each one-second sleep, so the clock
  is the wall-clock model (`time.time()` reads it).
* Fallible code returns `Except`; a Python `try/finally` or `try/except` is
  explicit control flow on the `Except` value.
* `get_transport_state` issues two SOAP calls (GetTransportInfo,
  GetMediaInfo) and is modelled with both events; the other helpers issue
  one SOAP call each.
-/

namespace Sonos

/-! ## String primitives (kernel-reducible re-implementations) -/

/-- Upper-case a string character by character, as Python str.upper does for
the ASCII device states that occur here. -/
def upperStr (s : String) : String := ⟨s.data.map Char.toUpper⟩

/-- Whitespace test used by trimming. -/
def isWs (c : Char) : Bool := c.isWhitespace

/-- Trim leading and trailing whitespace, as Python str.strip. -/
def trimStr (s : String) : String :=
  ⟨((s.data.dropWhile isWs).reverse.dropWhile isWs).reverse⟩

/-- Digit accumulation for integer parsing. -/
def digitsToNat : List Char → Option Nat
  | [] => none
  | l => go l 0
where
  go : List Char → Nat → Option Nat
    | [], acc => some acc
    | c :: rest, acc => if c.isDigit then go rest (acc * 10 + (c.toNat - 48)) else none

/-- Parse an optionally signed decimal integer after stripping whitespace, as
Python int(str) does. -/
def pyParseInt (s : String) : Option Int :=
  match trimStr s |>.data with
  | '-' :: rest => (digitsToNat rest).map (fun n => -(n : Int))
  | '+' :: rest => (digitsToNat rest).map (fun n => (n : Int))
  | l => (digitsToNat l).map (fun n => (n : Int))

/-- Truncation toward zero, as Python int() applied to a real number. -/
def pyInt (q : ℚ) : Int := if q < 0 then ⌈q⌉ else ⌊q⌋

/-! ## html.escape and its inverse (for didl_lite_meta, claim C9) -/

/-- Per-character expansion of Python html.escape with quote=True: the five
characters giving markup meaning become entity references. -/
def escChar (c : Char) : List Char :=
  if c = '&' then ['&', 'a', 'm', 'p', ';']
  else if c = '<' then ['&', 'l', 't', ';']
  else if c = '>' then ['&', 'g', 't', ';']
  else if c = '"' then ['&', 'q', 'u', 'o', 't', ';']
  else if c = Char.ofNat 39 then ['&', '#', 'x', '2', '7', ';']
  else [c]

/-- Python html.escape(s, quote=True) on the character list. -/
def escList (l : List Char) : List Char := (l.map escChar).flatten

/-- Python html.escape(s, quote=True). -/
def htmlEscape (s : String) : String := ⟨escList s.data⟩

/-- Entity decoding performed by an XML parser reading text back: the five
entities produced by htmlEscape are decoded, anything else is kept as is. -/
def unescList : List Char → List Char
  | '&' :: 'a' :: 'm' :: 'p' :: ';' :: rest => '&' :: unescList rest
  | '&' :: 'l' :: 't' :: ';' :: rest => '<' :: unescList rest
  | '&' :: 'g' :: 't' :: ';' :: rest => '>' :: unescList rest
  | '&' :: 'q' :: 'u' :: 'o' :: 't' :: ';' :: rest => '"' :: unescList rest
  | '&' :: '#' :: 'x' :: '2' :: '7' :: ';' :: rest => Char.ofNat 39 :: unescList rest
  | c :: rest => c :: unescList rest
  | [] => []

/-! ## didl_lite_meta and an XML read-back of its fixed schema (claim C9) -/

/-- Leading part of the DIDL-Lite template, up to and including the opening
dc:title tag, exactly as the f-string in didl_lite_meta. -/
def didlPre : String :=
  "<DIDL-Lite xmlns:dc=\"http://purl.org/dc/elements/1.1/\"\n  xmlns:upnp=\"urn:schemas-upnp-org:metadata-1-0/upnp/\"\n  xmlns:r=\"urn:schemas-rinconnetworks-com:metadata-1-0/\"\n  xmlns=\"urn:schemas-upnp-org:metadata-1-0/DIDL-Lite/\">\n  <item id=\"00000000\" parentID=\"00000000\" restricted=\"true\">\n    <dc:title>"

/-- Tail of the middle template part after its leading tag opener. -/
def didlMidT : String :=
  "/dc:title>\n    <upnp:class>object.item.audioItem.musicTrack</upnp:class>\n    <res protocolInfo=\"http-get:*:"

/-- Middle part of the template, from the closing dc:title tag up to and
including the protocolInfo attribute opening and its fixed http-get prefix. -/
def didlMid : String := "<" ++ didlMidT

/-- Tail of the closing template part after its leading tag opener. -/
def didlPostT : String := "/res>\n  </item>\n</DIDL-Lite>"

/-- Closing part of the template after the res element text. -/
def didlPost : String := "<" ++ didlPostT

/-- The didl_lite_meta function of speakers.py: the fixed DIDL-Lite fragment
with title and uri value-escaped and the MIME type inserted verbatim into the
protocolInfo attribute. -/
def didl_lite_meta (uri : String) (title : String := "Doorbell")
    (mime : String := "audio/mpeg") : String :=
  didlPre ++ htmlEscape title ++ didlMid ++ mime ++ ":*\">" ++ htmlEscape uri
    ++ didlPost

/-- Consume an exact expected character sequence, failing otherwise. -/
def dropExact : List Char → List Char → Option (List Char)
  | [], l => some l
  | _ :: _, [] => none
  | p :: ps, c :: cs => if c = p then dropExact ps cs else none

/-- Modelled from the spec: the repository has no parser for the metadata
fragment (the spec round-trips it through a standard XML parser), so reading
the fragment back is modelled here for the fixed schema didl_lite_meta emits.
The title and res texts run up to the next tag opener and are entity-decoded;
the protocolInfo attribute value runs up to the closing double quote, must be
well formed (no raw markup characters), and must carry the http-get framing
around the MIME type.  Returns (title, uri, mime), or none when the fragment
does not parse. -/
def parseDidl (s : String) : Option (String × String × String) :=
  match dropExact didlPre.data s.data with
  | none => none
  | some r1 =>
    let titleRaw := r1.takeWhile (· != '<')
    match dropExact didlMid.data (r1.dropWhile (· != '<')) with
    | none => none
    | some r2 =>
      let attrTail := r2.takeWhile (· != '"')
      if attrTail.all (fun c => c != '<' && c != '&')
          && decide (attrTail.drop (attrTail.length - 2) = [':', '*'])
          && decide (2 ≤ attrTail.length) then
        let mimeRaw := attrTail.take (attrTail.length - 2)
        match dropExact ['"', '>'] (r2.dropWhile (· != '"')) with
        | none => none
        | some r3 =>
          let uriRaw := r3.takeWhile (· != '<')
          match dropExact didlPost.data (r3.dropWhile (· != '<')) with
          | some [] =>
            some (⟨unescList titleRaw⟩, ⟨unescList uriRaw⟩, ⟨mimeRaw⟩)
          | _ => none
      else none

/-! ## SSDP discovery (claim C10) -/

/-- A parsed SSDP response: the case-normalized header map built by
ssdp_discover from one datagram.  Python dict insertion overwrites, so lookup
returns the value of the last binding of a key. -/
structure Hdrs where
  entries : List (String × String)
deriving DecidableEq

/-- Python dict .get on the header map: the most recent binding wins. -/
def Hdrs.get (h : Hdrs) (k : String) : Option String :=
  (h.entries.reverse.find? (fun kv => kv.1 == k)).map (·.2)

/-- The receive loop of ssdp_discover: before every receive it checks that
fewer than max_results responses were kept; a response is kept when its
LOCATION header is present, non-empty (Python truthiness) and not seen
before.  The incoming list is the sequence of datagrams that arrive before
the timeout elapses (the socket timeout and the deadline end the list). -/
def ssdpLoop (max_results : Nat) (seen : List String) (results : List Hdrs) :
    List Hdrs → List Hdrs
  | [] => results
  | h :: rest =>
    if results.length < max_results then
      match h.get "LOCATION" with
      | some loc =>
        if loc != "" && !(seen.contains loc) then
          ssdpLoop max_results (loc :: seen) (results ++ [h]) rest
        else ssdpLoop max_results seen results rest
      | none => ssdpLoop max_results seen results rest
    else results

/-- The ssdp_discover function of speakers.py, as a function of the datagrams
arriving within the timeout window. -/
def ssdp_discover (max_results : Nat) (incoming : List Hdrs) : List Hdrs :=
  ssdpLoop max_results [] [] incoming

/-- Reference form of the deduplication: keep the first response per
non-empty location not already seen, with no result bound. -/
def dedupByLoc (seen : List String) : List Hdrs → List Hdrs
  | [] => []
  | h :: rest =>
    match h.get "LOCATION" with
    | some loc =>
      if loc != "" && !(seen.contains loc) then h :: dedupByLoc (loc :: seen) rest
      else dedupByLoc seen rest
    | none => dedupByLoc seen rest

/-! ## Volume range query (claim C6) -/

/-- The UpnpSoapError raised by soap_call on a non-success HTTP response:
status code and the optional errorCode extracted from the fault body. -/
structure UpnpSoapError where
  status_code : Option Int
  upnp_error : Option Int
deriving DecidableEq

/-- The parts of a successful GetVolumeRange response document that
get_volume_range reads: the text of the MinValue and MaxValue elements, none
when the element is absent or has no text. -/
structure VolumeRangeDoc where
  minText : Option String
  maxText : Option String
deriving DecidableEq

/-- Errors that can escape the device-loading path. -/
inductive LoadError where
  | httpErr (status : Int)
  | xmlErr
  | soapErr (e : UpnpSoapError)
  | valueErr
deriving DecidableEq

/-- The get_volume_range function of speakers.py, as a function of the
outcome of its one SOAP call.  A fault whose upnp error code is 401 resolves
to the default range; any other fault re-raises; a success whose MinValue or
MaxValue is absent or has empty stripped text falls through to the default
range; int() failure on the texts raises ValueError. -/
def get_volume_range (resp : Except UpnpSoapError VolumeRangeDoc) :
    Except LoadError (Int × Int) :=
  match resp with
  | .error e =>
    if e.upnp_error = some 401 then .ok (0, 100) else .error (.soapErr e)
  | .ok doc =>
    match doc.minText, doc.maxText with
    | some mn, some mx =>
      if trimStr mn != "" && trimStr mx != "" then
        match pyParseInt mn, pyParseInt mx with
        | some a, some b => .ok (a, b)
        | _, _ => .error .valueErr
      else .ok (0, 100)
    | _, _ => .ok (0, 100)

/-! ## Device records and inventory construction (claim C7) -/

/-- The Device dataclass of speakers.py. -/
structure Device where
  id : String
  mac_addr : String
  location : String
  friendly_name : String
  av_transport_control_url : String
  rendering_control_url : String
  volume_range : Int × Int
  host_ip : String
deriving DecidableEq

/-- One entry of the serviceList in a device description, after _xml_text:
empty strings stand for absent elements or missing text. -/
structure ServiceEntry where
  serviceType : String
  controlURL : String
deriving DecidableEq

/-- A fetched and XML-parsed device description, reduced to the fields
load_device_info reads, each already passed through _xml_text (so an absent
element reads as the empty string). -/
structure DeviceDescription where
  friendlyText : String
  macText : String
  services : List ServiceEntry
deriving DecidableEq

/-- Split a list at the first occurrence of a separator sequence.  Used to
model urllib.parse on the location URL. -/
def splitOnceL (sep : List Char) : List Char → Option (List Char × List Char)
  | [] => none
  | c :: cs =>
    match dropExact sep (c :: cs) with
    | some rest => some ([], rest)
    | none => (splitOnceL sep cs).map (fun p => (c :: p.1, p.2))

/-- The scheme://netloc base that load_device_info builds from the location
URL with urllib.parse.urlparse. -/
def baseOf (location : String) : String :=
  match splitOnceL "://".data location.data with
  | some (scheme, rest) => ⟨scheme⟩ ++ "://" ++ ⟨rest.takeWhile (· != '/')⟩
  | none => "://"

/-- Resolution of a control path against the description base, as
urllib.parse.urljoin does for a base of the form scheme://netloc: an
absolute URL replaces the base, an absolute path is appended to the netloc,
and a relative path is resolved against the empty base path. -/
def urljoinBase (base rel : String) : String :=
  if (splitOnceL "://".data rel.data).isSome then rel
  else if rel.data.head? = some '/' then base ++ rel
  else base ++ "/" ++ rel

/-- Prefix test on character lists, used for str.startswith. -/
def startsWithL (pre s : List Char) : Bool := (dropExact pre s).isSome

/-- The service-scanning loop of load_device_info: entries with an empty type
or control URL are skipped, and later matches of either service prefix
overwrite earlier ones, exactly as the Python assignments do. -/
def scanServices (base : String) (services : List ServiceEntry) :
    Option String × Option String :=
  services.foldl
    (fun acc s =>
      if s.serviceType = "" ∨ s.controlURL = "" then acc
      else if startsWithL "urn:schemas-upnp-org:service:AVTransport:".data
          s.serviceType.data then
        (some (urljoinBase base s.controlURL), acc.2)
      else if startsWithL "urn:schemas-upnp-org:service:RenderingControl:".data
          s.serviceType.data then
        (acc.1, some (urljoinBase base s.controlURL))
      else acc)
    (none, none)

/-- The load_device_info function of speakers.py, as a function of the fetch
outcome for the location, the GetVolumeRange response of the resolved
rendering service, and the local outbound IP the OS reports toward the
device.  Returns ok none when either required service is absent (the device
is skipped), propagates fetch, parse and volume-range errors, and otherwise
builds the Device record with id equal to the reported MAC address text. -/
def load_device_info (location : String)
    (fetch : Except LoadError DeviceDescription)
    (vrResp : String → Except UpnpSoapError VolumeRangeDoc)
    (hostIp : String → String) : Except LoadError (Option Device) :=
  match fetch with
  | .error e => .error e
  | .ok desc =>
    let friendly_name := if desc.friendlyText = "" then location else desc.friendlyText
    let mac_addr := desc.macText
    let base := baseOf location
    match scanServices base desc.services with
    | (some av, some rc) =>
      if av = "" ∨ rc = "" then .ok none
      else
        match get_volume_range (vrResp rc) with
        | .error e => .error e
        | .ok range =>
          .ok (some
            { id := mac_addr
              mac_addr := mac_addr
              location := location
              friendly_name := friendly_name
              av_transport_control_url := av
              rendering_control_url := rc
              volume_range := range
              host_ip := hostIp location })
    | _ => .ok none

/-- The loop body of SonosController.__init__ over the discovery responses:
responses without a (truthy) LOCATION are skipped, load failures propagate,
and resolved devices are appended in response order. -/
def initappend (fetch : String → Except LoadError DeviceDescription)
    (vrResp : String → Except UpnpSoapError VolumeRangeDoc)
    (hostIp : String → String) : List Hdrs → Except LoadError (List Device)
  | [] => .ok []
  | h :: rest =>
    match h.get "LOCATION" with
    | none => initappend fetch vrResp hostIp rest
    | some loc =>
      if loc = "" then initappend fetch vrResp hostIp rest
      else
        match load_device_info loc (fetch loc) vrResp hostIp with
        | .error e => .error e
        | .ok none => initappend fetch vrResp hostIp rest
        | .ok (some d) =>
          match initappend fetch vrResp hostIp rest with
          | .error e => .error e
          | .ok ds => .ok (d :: ds)

/-- The SonosController constructor: discover with max_results 25, then
resolve each response into the device inventory. -/
def SonosController_init (incoming : List Hdrs)
    (fetch : String → Except LoadError DeviceDescription)
    (vrResp : String → Except UpnpSoapError VolumeRangeDoc)
    (hostIp : String → String) : Except LoadError (List Device) :=
  initappend fetch vrResp hostIp (ssdp_discover 25 incoming)

/-! ## Transport state and the network oracle (claims C1 to C5, C8) -/

/-- The TransportState dataclass: playback status (upper-cased on read),
current source URI and its metadata. -/
structure TransportState where
  state : String
  uri : String
  meta : String
deriving DecidableEq

/-- The playing property of TransportState. -/
def TransportState.playing (s : TransportState) : Bool := s.state == "PLAYING"

/-- One remote SOAP interaction, tagged with the device it addresses and the
data transmitted; sleep is the one-second pause between polling rounds. -/
inductive SCall where
  | getTransportInfo (d : Device)
  | getMediaInfo (d : Device)
  | getVolumeCall (d : Device)
  | stopCall (d : Device)
  | setVolumeCall (d : Device) (v : Int)
  | setUriCall (d : Device) (uri meta : String)
  | playCall (d : Device)
  | sleep
deriving DecidableEq

/-- What a device answers to one call: err true means the call raises; ts
carries the raw (not yet upper-cased) transport state and media info texts;
vol the CurrentVolume integer. -/
structure Answer where
  err : Bool
  ts : TransportState
  vol : Int
deriving DecidableEq

/-- The network oracle: the answer of the remote side as a function of the
global clock and the call made. -/
def Env : Type := Nat → SCall → Answer

/-- Exceptions of the play operation: the ValueError of validation, or a
raised call identified by the clock at which it was made. -/
inductive PyErr where
  | valueError
  | callFail (t : Nat) (c : SCall)
deriving DecidableEq

/-- Outcome of a code fragment: result or exception, clock afterwards, and
the calls made (in order). -/
def Run (α : Type) : Type := Except PyErr α × Nat × List SCall

/-- One network call: one clock tick, one trace event, raising when the
oracle says so. -/
def callNet (env : Env) (t : Nat) (c : SCall) : Run Answer :=
  let a := env t c
  (if a.err then .error (.callFail t c) else .ok a, t + 1, [c])

/-- The get_transport_state helper: GetTransportInfo then GetMediaInfo, with
the status string upper-cased. -/
def get_transport_state (env : Env) (t : Nat) (d : Device) : Run TransportState :=
  match callNet env t (.getTransportInfo d) with
  | (.error e, t1, tr1) => (.error e, t1, tr1)
  | (.ok a1, t1, tr1) =>
    match callNet env t1 (.getMediaInfo d) with
    | (.error e, t2, tr2) => (.error e, t2, tr1 ++ tr2)
    | (.ok a2, t2, tr2) =>
      (.ok ⟨upperStr a1.ts.state, a2.ts.uri, a2.ts.meta⟩, t2, tr1 ++ tr2)

/-- The get_volume helper: returns 0 without any call when the device has no
rendering control URL (Python truthiness), else one GetVolume call. -/
def get_volume (env : Env) (t : Nat) (d : Device) : Run Int :=
  if d.rendering_control_url = "" then (.ok 0, t, [])
  else
    match callNet env t (.getVolumeCall d) with
    | (.error e, t1, tr1) => (.error e, t1, tr1)
    | (.ok a, t1, tr1) => (.ok a.vol, t1, tr1)

/-- The set_volume helper: no call when the device has no rendering control
URL; otherwise the requested volume is clamped to [0, 100] before being
transmitted as DesiredVolume. -/
def set_volume (env : Env) (t : Nat) (d : Device) (volume : Int) : Run Unit :=
  if d.rendering_control_url = "" then (.ok (), t, [])
  else
    let v := max 0 (min 100 volume)
    match callNet env t (.setVolumeCall d v) with
    | (.error e, t1, tr1) => (.error e, t1, tr1)
    | (.ok _, t1, tr1) => (.ok (), t1, tr1)

/-- The set_uri helper: one SetAVTransportURI call. -/
def set_uri (env : Env) (t : Nat) (d : Device) (uri meta : String) : Run Unit :=
  match callNet env t (.setUriCall d uri meta) with
  | (.error e, t1, tr1) => (.error e, t1, tr1)
  | (.ok _, t1, tr1) => (.ok (), t1, tr1)

/-- The stop helper: one Stop call. -/
def stopDev (env : Env) (t : Nat) (d : Device) : Run Unit :=
  match callNet env t (.stopCall d) with
  | (.error e, t1, tr1) => (.error e, t1, tr1)
  | (.ok _, t1, tr1) => (.ok (), t1, tr1)

/-- The play helper: one Play call at normal speed. -/
def playDev (env : Env) (t : Nat) (d : Device) : Run Unit :=
  match callNet env t (.playCall d) with
  | (.error e, t1, tr1) => (.error e, t1, tr1)
  | (.ok _, t1, tr1) => (.ok (), t1, tr1)

/-! ## The play_url_per_device state machine -/

/-- Python dict lookup in the urls mapping (unique keys; first binding). -/
def dGet (urls : List (String × String)) (k : String) : String :=
  ((urls.find? (fun kv => kv.1 == k)).map (·.2)).getD ""

/-- Python membership test k in urls.keys(). -/
def dHasKey (urls : List (String × String)) (k : String) : Bool :=
  (urls.find? (fun kv => kv.1 == k)).isSome

/-- Snapshot entry: the prior TransportState and volume of one device. -/
structure Prev where
  state : TransportState
  vol : Int
deriving DecidableEq

/-- The snapshot loop: for each target device read its transport state and
volume; an exception here propagates before any mutation. -/
def snapshotPhase (env : Env) (t : Nat) : List Device → Run (List Prev)
  | [] => (.ok [], t, [])
  | d :: rest =>
    match get_transport_state env t d with
    | (.error e, t1, tr1) => (.error e, t1, tr1)
    | (.ok st, t1, tr1) =>
      match get_volume env t1 d with
      | (.error e, t2, tr2) => (.error e, t2, tr1 ++ tr2)
      | (.ok v, t2, tr2) =>
        match snapshotPhase env t2 rest with
        | (.error e, t3, tr3) => (.error e, t3, tr1 ++ tr2 ++ tr3)
        | (.ok ps, t3, tr3) => (.ok (⟨st, v⟩ :: ps), t3, tr1 ++ tr2 ++ tr3)

/-- The start-phase body for one device: stop, set volume to the clip level
int(max(0, min(1, volume)) * (max_vol - min_vol) + min_vol), set the
assigned source with fresh metadata, then play.  The first raising call
aborts the remainder. -/
def startOne (env : Env) (urls : List (String × String)) (volume : ℚ)
    (title mime : String) (t : Nat) (dev : Device) : Run Unit :=
  let url := dGet urls dev.id
  let new_meta := didl_lite_meta url title mime
  let min_vol := dev.volume_range.1
  let max_vol := dev.volume_range.2
  match stopDev env t dev with
  | (.error e, t1, tr1) => (.error e, t1, tr1)
  | (.ok _, t1, tr1) =>
    match set_volume env t1 dev
        (pyInt (max 0 (min 1 volume) * ((max_vol : ℚ) - (min_vol : ℚ))
          + (min_vol : ℚ))) with
    | (.error e, t2, tr2) => (.error e, t2, tr1 ++ tr2)
    | (.ok _, t2, tr2) =>
      match set_uri env t2 dev url new_meta with
      | (.error e, t3, tr3) => (.error e, t3, tr1 ++ tr2 ++ tr3)
      | (.ok _, t3, tr3) =>
        match playDev env t3 dev with
        | (r, t4, tr4) => (r, t4, tr1 ++ tr2 ++ tr3 ++ tr4)

/-- The start phase over the target devices in inventory order; a raising
call aborts the phase for the remaining devices. -/
def startPhase (env : Env) (urls : List (String × String)) (volume : ℚ)
    (title mime : String) (t : Nat) : List Device → Run Unit
  | [] => (.ok (), t, [])
  | d :: rest =>
    match startOne env urls volume title mime t d with
    | (.error e, t1, tr1) => (.error e, t1, tr1)
    | (.ok _, t1, tr1) =>
      match startPhase env urls volume title mime t1 rest with
      | (r, t2, tr2) => (r, t2, tr1 ++ tr2)

/-- One polling round of the wait-for-start loop: every device is polled and
its switched flag is set (stickily) when the observed URI equals the url
variable left over from the start loop. -/
def pollRoundStart (env : Env) (url : String) (t : Nat) :
    List (Device × Bool) → Run (List Bool)
  | [] => (.ok [], t, [])
  | (d, b) :: rest =>
    match get_transport_state env t d with
    | (.error e, t1, tr1) => (.error e, t1, tr1)
    | (.ok st, t1, tr1) =>
      let b1 := b || (st.uri == url)
      match pollRoundStart env url t1 rest with
      | (.error e, t2, tr2) => (.error e, t2, tr1 ++ tr2)
      | (.ok bs, t2, tr2) => (.ok (b1 :: bs), t2, tr1 ++ tr2)

/-- The wait-for-start loop: at most start_timeout_seconds rounds, breaking
as soon as every flag is set, sleeping one second between rounds. -/
def waitStartLoop (env : Env) (devices : List Device) (url : String) (t : Nat)
    (switched : List Bool) : Nat → Run Unit
  | 0 => (.ok (), t, [])
  | n + 1 =>
    match pollRoundStart env url t (devices.zip switched) with
    | (.error e, t1, tr1) => (.error e, t1, tr1)
    | (.ok sw, t1, tr1) =>
      if sw.all (fun b => b) then (.ok (), t1, tr1)
      else
        match waitStartLoop env devices url (t1 + 1) sw n with
        | (r, t2, tr2) => (r, t2, tr1 ++ SCall.sleep :: tr2)

/-- The done condition of the wait-for-completion loop as the code computes
it: the observed URI differs from the url variable, or the status is neither
PLAYING nor TRANSITIONING. -/
def doneCond (url : String) (st : TransportState) : Bool :=
  st.uri != url || !(st.state == "PLAYING" || st.state == "TRANSITIONING")

/-- One polling round of the wait-for-completion loop, setting each done
flag stickily from doneCond. -/
def pollRoundDone (env : Env) (url : String) (t : Nat) :
    List (Device × Bool) → Run (List Bool)
  | [] => (.ok [], t, [])
  | (d, b) :: rest =>
    match get_transport_state env t d with
    | (.error e, t1, tr1) => (.error e, t1, tr1)
    | (.ok st, t1, tr1) =>
      let b1 := b || doneCond url st
      match pollRoundDone env url t1 rest with
      | (.error e, t2, tr2) => (.error e, t2, tr1 ++ tr2)
      | (.ok bs, t2, tr2) => (.ok (b1 :: bs), t2, tr1 ++ tr2)

/-- The wait-for-completion loop (while True in the source, so unbounded):
fuel bounds the modelled execution and none means the loop is still running
after fuel rounds.  Breaks once every flag is set, sleeping between rounds;
a raising poll exits the loop with the exception. -/
def waitDoneLoop (env : Env) (devices : List Device) (url : String) (t : Nat)
    (flags : List Bool) : Nat → Option (Run Unit)
  | 0 => none
  | n + 1 =>
    match pollRoundDone env url t (devices.zip flags) with
    | (.error e, t1, tr1) => some (.error e, t1, tr1)
    | (.ok fl, t1, tr1) =>
      if fl.all (fun b => b) then some (.ok (), t1, tr1)
      else
        match waitDoneLoop env devices url (t1 + 1) fl n with
        | none => none
        | some (r, t2, tr2) => some (r, t2, tr1 ++ SCall.sleep :: tr2)

/-- The url variable after the start loop: reassigned for each device in
turn, so it holds the url of the last target device (and is never read when
there is none). -/
def lastUrl (urls : List (String × String)) (devices : List Device) : String :=
  devices.foldl (fun _ d => dGet urls d.id) ""

/-- Steps 3 to 5 of the play operation (the body of the try block): start
phase, wait-for-start, wait-for-completion. -/
def mainPhases (env : Env) (devices : List Device)
    (urls : List (String × String)) (volume : ℚ) (title mime : String)
    (sts fuel t : Nat) : Option (Run Unit) :=
  match startPhase env urls volume title mime t devices with
  | (.error e, t1, tr1) => some (.error e, t1, tr1)
  | (.ok _, t1, tr1) =>
    match waitStartLoop env devices (lastUrl urls devices) t1
        (List.replicate devices.length false) sts with
    | (.error e, t2, tr2) => some (.error e, t2, tr1 ++ tr2)
    | (.ok _, t2, tr2) =>
      match waitDoneLoop env devices (lastUrl urls devices) t2
          (List.replicate devices.length false) fuel with
      | none => none
      | some (r, t3, tr3) => some (r, t3, tr1 ++ tr2 ++ tr3)

/-- Restoration of one device without the enclosing except clause: restore
the volume; when the snapshot held no source URI, nothing more; otherwise
restore the source and metadata and issue play or stop according to the
snapshotted playing flag.  The first raising call aborts this device. -/
def restoreOneCore (env : Env) (t : Nat) (p : Device × Prev) : Run Unit :=
  match set_volume env t p.1 p.2.vol with
  | (.error e, t1, tr1) => (.error e, t1, tr1)
  | (.ok _, t1, tr1) =>
    if p.2.state.uri = "" then (.ok (), t1, tr1)
    else
      match set_uri env t1 p.1 p.2.state.uri p.2.state.meta with
      | (.error e, t2, tr2) => (.error e, t2, tr1 ++ tr2)
      | (.ok _, t2, tr2) =>
        match (if p.2.state.playing then playDev env t2 p.1
               else stopDev env t2 p.1) with
        | (r, t3, tr3) => (r, t3, tr1 ++ tr2 ++ tr3)

/-- The restore loop of the finally block: each device of the snapshot is
restored in snapshot order; a failure while restoring one device is caught
(reported to stderr in the source) and the loop continues with the next
device, so restoration never raises. -/
def restorePhase (env : Env) (t : Nat) : List (Device × Prev) → Nat × List SCall
  | [] => (t, [])
  | p :: rest =>
    match restoreOneCore env t p with
    | (_, t1, tr1) =>
      match restorePhase env t1 rest with
      | (t2, tr2) => (t2, tr1 ++ tr2)

/-- The play_url_per_device method of SonosController, with the clock
starting at 0.  Validation precedes everything; the snapshot runs before the
try block (so a snapshot exception propagates without restoration); the
finally block always restores; the returned elapsed seconds are
time.time() - t1 evaluated after the finally block has run.  The result is
none when the unbounded wait-for-completion loop is still running after fuel
rounds. -/
def play_url_per_device (env : Env) (fuel : Nat) (inventory : List Device)
    (urls : List (String × String)) (volume : ℚ) (title mime : String)
    (start_timeout_seconds : Nat) : Option (Run Int) :=
  if volume < 0 ∨ volume > 1 then some (.error .valueError, 0, [])
  else
    let devices := inventory.filter (fun d => dHasKey urls d.id)
    match snapshotPhase env 0 devices with
    | (.error e, t1, tr1) => some (.error e, t1, tr1)
    | (.ok prevs, t1, tr1) =>
      match mainPhases env devices urls volume title mime
          start_timeout_seconds fuel t1 with
      | none => none
      | some (r, t2, tr2) =>
        match restorePhase env t2 (devices.zip prevs) with
        | (t3, tr3) =>
          some ((match r with
                 | .error e => .error e
                 | .ok _ => .ok ((t3 : Int) - (t1 : Int))),
                t3, tr1 ++ tr2 ++ tr3)

/-! ## Concrete fixtures used by witnesses and counterexamples -/

/-- A transport state answered as previously playing. -/
def tsP : TransportState := ⟨"PLAYING", "p", "pm"⟩

/-- A transport state answered as previously stopped on another source. -/
def tsStop : TransportState := ⟨"STOPPED", "pu", "pm"⟩

/-- A single concrete device with the default volume range. -/
def devW : Device :=
  ⟨"W", "W", "http://w/d", "W", "http://w/av", "http://w/rc", (0, 100), "h"⟩

/-- An oracle on which every call succeeds and every device reports tsStop
with volume 5. -/
def envW0 : Env := fun _ _ => ⟨false, tsStop, 5⟩

/-- The volume value the start phase transmits to devW at fraction 0. -/
def vW : Int := max 0 (min 100 (pyInt (max 0 (min 1 (0 : ℚ))
  * ((devW.volume_range.2 : ℚ) - (devW.volume_range.1 : ℚ))
  + (devW.volume_range.1 : ℚ))))

/-- Three concrete devices for the restoration scenario. -/
def dW1 : Device :=
  ⟨"1", "1", "http://a/d", "A", "http://a/av", "http://a/rc", (0, 100), "h"⟩

/-- Second device of the scenario. -/
def dW2 : Device :=
  ⟨"2", "2", "http://b/d", "B", "http://b/av", "http://b/rc", (0, 100), "h"⟩

/-- Third device of the scenario. -/
def dW3 : Device :=
  ⟨"3", "3", "http://c/d", "C", "http://c/av", "http://c/rc", (0, 100), "h"⟩

/-- Per-device urls for the three-device scenario. -/
def urlsW : List (String × String) := [("1", "u1"), ("2", "u2"), ("3", "u3")]

/-- The oracle of the C1 scenario: the set-source call for the second device
and its clip URL raises (failing the start phase on device 2 of 3), and any
volume call to the first device from clock 16 on raises (failing the restore
of device 1); everything else succeeds and reports tsP with volume 5. -/
def envW1 : Env := fun t c =>
  match c with
  | .setUriCall d u _ => ⟨d == dW2 && u == "u2", tsP, 5⟩
  | .setVolumeCall d _ => ⟨d == dW1 && decide (16 ≤ t), tsP, 5⟩
  | _ => ⟨false, tsP, 5⟩

/-- The oracle of the stale-url scenarios: every call succeeds, every device
always reports status PLAYING with its own assigned clip URL as source. -/
def envU : Env := fun _ c =>
  match c with
  | .getMediaInfo d => ⟨false, ⟨"PLAYING", if d == dW1 then "u1" else "u2", "m"⟩, 5⟩
  | _ => ⟨false, ⟨"PLAYING", "u", "m"⟩, 5⟩

/-- Extraction of a completed run, defaulting on none. -/
def runOf (o : Option (Run Int)) : Run Int := o.getD (.ok 0, 0, [])

/-- Extraction of a completed wait phase, defaulting on none. -/
def runUnitOf (o : Option (Run Unit)) : Run Unit := o.getD (.ok (), 0, [])

/-- Extraction of a successful snapshot list. -/
def prevsOf (r : Run (List Prev)) : List Prev :=
  match r.1 with
  | .ok l => l
  | .error _ => []

/-- Extraction of a successfully built inventory. -/
def devsOf (e : Except LoadError (List Device)) : List Device :=
  match e with
  | .ok l => l
  | .error _ => []

/-- Device description of the C7 scenario: both required services present
but no MACAddress element. -/
def descC7 : DeviceDescription :=
  ⟨"Room", "",
   [⟨"urn:schemas-upnp-org:service:AVTransport:1", "/av"⟩,
    ⟨"urn:schemas-upnp-org:service:RenderingControl:1", "/rc"⟩]⟩

/-- Fetch oracle of the C7 scenario: every location resolves to descC7. -/
def fetchC7 : String → Except LoadError DeviceDescription := fun _ => .ok descC7

/-- Volume-range oracle of the C7 scenario: the device reports MinValue 50
and MaxValue 10. -/
def vrC7 : String → Except UpnpSoapError VolumeRangeDoc :=
  fun _ => .ok ⟨some "50", some "10"⟩

/-- Host-IP oracle of the C7 scenario. -/
def hostC7 : String → String := fun _ => "10.0.0.5"

/-- First discovery response of the C7 scenario. -/
def hdrA : Hdrs := ⟨[("LOCATION", "http://a/d.xml")]⟩

/-- Second discovery response of the C7 scenario. -/
def hdrB : Hdrs := ⟨[("LOCATION", "http://b/d.xml")]⟩

/-- The device the C7 scenario resolves at the first location: empty
identifier and an inverted volume range. -/
def devC7a : Device :=
  ⟨"", "", "http://a/d.xml", "Room", "http://a/av", "http://a/rc", (50, 10),
   "10.0.0.5"⟩

/-- The device the C7 scenario resolves at the second location. -/
def devC7b : Device :=
  ⟨"", "", "http://b/d.xml", "Room", "http://b/av", "http://b/rc", (50, 10),
   "10.0.0.5"⟩

/-! ## Theorems -/

/-- C5: for every volume fraction f with f < 0 or f > 1, the play operation
raises ValueError immediately: the result is the validation error, the clock
has not advanced and the trace of network calls is empty, so no snapshot and
no device mutation happened before the rejection. -/
theorem play_validation_rejects_without_calls (env : Env) (fuel : Nat)
    (inventory : List Device) (urls : List (String × String)) (f : ℚ)
    (title mime : String) (sts : Nat) (hf : f < 0 ∨ f > 1) :
    play_url_per_device env fuel inventory urls f title mime sts
      = some (.error .valueError, 0, []) := by
  simp [play_url_per_device, hf]

/-- Witness for C5 at the concrete fraction 2 with a one-device inventory. -/
theorem play_validation_rejects_without_calls_witness :
    ((2 : ℚ) < 0 ∨ (2 : ℚ) > 1)
    ∧ play_url_per_device (fun _ _ => ⟨false, ⟨"", "", ""⟩, 0⟩) 1
        [⟨"W", "W", "l", "W", "a", "r", (0, 100), "h"⟩] [("W", "u")] 2 "t" "m" 1
      = some (.error .valueError, 0, []) :=
  ⟨by norm_num,
   play_validation_rejects_without_calls _ 1 _ _ 2 "t" "m" 1 (by norm_num)⟩

/-- C6: a GetVolumeRange fault whose upnp error code is 401 resolves to the
default range (0, 100); a fault with any other error code propagates; and a
successful response whose MinValue or MaxValue is missing or has empty
stripped text also resolves to the default range (0, 100). -/
theorem get_volume_range_fault_handling
    (resp : Except UpnpSoapError VolumeRangeDoc) :
    (∀ e, resp = .error e → e.upnp_error = some 401 →
      get_volume_range resp = .ok (0, 100))
    ∧ (∀ e c, resp = .error e → e.upnp_error = some c → c ≠ 401 →
      get_volume_range resp = .error (.soapErr e))
    ∧ (∀ doc, resp = .ok doc →
      (doc.minText = none ∨ doc.maxText = none
        ∨ (∃ s, doc.minText = some s ∧ trimStr s = "")
        ∨ (∃ s, doc.maxText = some s ∧ trimStr s = "")) →
      get_volume_range resp = .ok (0, 100)) := by
  refine ⟨?_, ?_, ?_⟩
  · rintro e rfl h401
    simp [get_volume_range, h401]
  · rintro e c rfl hc hne
    have : e.upnp_error ≠ some 401 := by
      rw [hc]; intro h; exact hne (Option.some.inj h)
    simp [get_volume_range, this]
  · rintro doc rfl hmiss
    rcases hmiss with h | h | ⟨s, hs, hts⟩ | ⟨s, hs, hts⟩
    · simp [get_volume_range, h]
    · cases hmn : doc.minText <;> simp [get_volume_range, h, hmn]
    · cases hmx : doc.maxText <;> simp [get_volume_range, hs, hts, hmx]
    · cases hmn : doc.minText <;> simp [get_volume_range, hs, hts, hmn]

/-- Witness for C6: a 401 fault, a 718 fault, and a response whose MinValue
text strips to empty, evaluated concretely. -/
theorem get_volume_range_fault_handling_witness :
    get_volume_range (.error ⟨some 500, some 401⟩) = .ok (0, 100)
    ∧ get_volume_range (.error ⟨some 500, some 718⟩)
      = .error (.soapErr ⟨some 500, some 718⟩)
    ∧ get_volume_range (.ok ⟨some " ", some "10"⟩) = .ok (0, 100) :=
  ⟨(get_volume_range_fault_handling _).1 _ rfl rfl,
   (get_volume_range_fault_handling _).2.1 _ 718 rfl rfl (by decide),
   (get_volume_range_fault_handling _).2.2 _ rfl
     (Or.inr (Or.inr (Or.inl ⟨" ", rfl, by decide⟩)))⟩
/-- The receive loop is the unbounded deduplication truncated to the free
result capacity. -/
theorem ssdpLoop_eq_dedup (incoming : List Hdrs) : ∀ maxr seen results,
    ssdpLoop maxr seen results incoming
      = results ++ (dedupByLoc seen incoming).take (maxr - results.length) := by
  induction incoming with
  | nil => intro maxr seen results; cases Nat.lt_or_ge results.length maxr <;>
      simp [ssdpLoop, dedupByLoc]
  | cons h rest ih =>
    intro maxr seen results
    by_cases hlt : results.length < maxr
    · cases hloc : h.get "LOCATION" with
      | none => simp [ssdpLoop, hlt, hloc, dedupByLoc, ih]
      | some loc =>
        by_cases hk : ¬loc = "" ∧ loc ∉ seen
        · have htake : maxr - results.length
              = (maxr - (results.length + 1)) + 1 := by omega
          simp only [ssdpLoop, hlt, if_true, hloc, dedupByLoc, ih]
          simp [hk, htake, List.take_succ_cons]
        · simp only [ssdpLoop, hlt, if_true, hloc, dedupByLoc, ih]
          simp [hk]
    · have h0 : maxr - results.length = 0 := by omega
      simp [ssdpLoop, hlt, h0]

/-- Deduplication yields a subsequence of the incoming datagrams. -/
theorem dedupByLoc_sublist : ∀ (incoming : List Hdrs) (seen : List String),
    (dedupByLoc seen incoming).Sublist incoming := by
  intro incoming
  induction incoming with
  | nil => intro seen; simp [dedupByLoc]
  | cons h rest ih =>
    intro seen
    cases hloc : h.get "LOCATION" with
    | none =>
      refine List.Sublist.trans ?_ (List.sublist_cons_self h rest)
      simpa [dedupByLoc, hloc] using ih seen
    | some loc =>
      by_cases hk : ¬loc = "" ∧ loc ∉ seen
      · simpa [dedupByLoc, hloc, hk] using (ih (loc :: seen)).cons₂ h
      · refine List.Sublist.trans ?_ (List.sublist_cons_self h rest)
        simpa [dedupByLoc, hloc, hk] using ih seen

/-- Every kept datagram carries a non-empty location not seen before the
loop started. -/
theorem dedupByLoc_loc : ∀ (incoming : List Hdrs) (seen : List String),
    ∀ h ∈ dedupByLoc seen incoming, ∃ l, h.get "LOCATION" = some l ∧ l ≠ ""
      ∧ l ∉ seen := by
  intro incoming
  induction incoming with
  | nil => intro seen h hmem; simp [dedupByLoc] at hmem
  | cons h0 rest ih =>
    intro seen h hmem
    cases hloc : h0.get "LOCATION" with
    | none => exact ih seen h (by simpa [dedupByLoc, hloc] using hmem)
    | some loc =>
      by_cases hk : ¬loc = "" ∧ loc ∉ seen
      · rw [show dedupByLoc seen (h0 :: rest)
            = h0 :: dedupByLoc (loc :: seen) rest by simp [dedupByLoc, hloc, hk]]
          at hmem
        rcases List.mem_cons.mp hmem with rfl | hmem
        · exact ⟨loc, hloc, hk.1, hk.2⟩
        · obtain ⟨l, hl, hlne, hlc⟩ := ih (loc :: seen) h hmem
          exact ⟨l, hl, hlne, fun hmem2 => hlc (List.mem_cons_of_mem loc hmem2)⟩
      · exact ih seen h (by simpa [dedupByLoc, hloc, hk] using hmem)

/-- The kept locations are pairwise distinct. -/
theorem dedupByLoc_pairwise : ∀ (incoming : List Hdrs) (seen : List String),
    ((dedupByLoc seen incoming).map (fun h => h.get "LOCATION")).Pairwise Ne := by
  intro incoming
  induction incoming with
  | nil => intro seen; simp [dedupByLoc]
  | cons h0 rest ih =>
    intro seen
    cases hloc : h0.get "LOCATION" with
    | none => simpa [dedupByLoc, hloc] using ih seen
    | some loc =>
      by_cases hk : ¬loc = "" ∧ loc ∉ seen
      · rw [show dedupByLoc seen (h0 :: rest)
            = h0 :: dedupByLoc (loc :: seen) rest by simp [dedupByLoc, hloc, hk]]
        rw [List.map_cons, List.pairwise_cons]
        refine ⟨?_, ih (loc :: seen)⟩
        intro o ho
        obtain ⟨h1, hmem, rfl⟩ := List.mem_map.mp ho
        obtain ⟨l, hl, _, hlc⟩ := dedupByLoc_loc rest (loc :: seen) h1 hmem
        rw [hloc, hl]
        intro hcontra
        exact hlc (Option.some.inj hcontra ▸ List.mem_cons_self loc seen)
      · simpa [dedupByLoc, hloc, hk] using ih seen

/-- Each kept datagram is the first arrival bearing its location. -/
theorem dedupByLoc_first : ∀ (incoming : List Hdrs) (seen : List String),
    ∀ h ∈ dedupByLoc seen incoming, ∃ l pre post, h.get "LOCATION" = some l
      ∧ l ≠ "" ∧ incoming = pre ++ h :: post
      ∧ ∀ h2 ∈ pre, h2.get "LOCATION" ≠ some l := by
  intro incoming
  induction incoming with
  | nil => intro seen h hmem; simp [dedupByLoc] at hmem
  | cons h0 rest ih =>
    intro seen h hmem
    cases hloc : h0.get "LOCATION" with
    | none =>
      obtain ⟨l, pre, post, hl, hlne, hsplit, hfirst⟩ :=
        ih seen h (by simpa [dedupByLoc, hloc] using hmem)
      refine ⟨l, h0 :: pre, post, hl, hlne, by simp [hsplit], ?_⟩
      intro h2 hh2
      rcases List.mem_cons.mp hh2 with rfl | hh2
      · simp [hloc]
      · exact hfirst h2 hh2
    | some loc =>
      by_cases hk : ¬loc = "" ∧ loc ∉ seen
      · rw [show dedupByLoc seen (h0 :: rest)
            = h0 :: dedupByLoc (loc :: seen) rest by simp [dedupByLoc, hloc, hk]]
          at hmem
        rcases List.mem_cons.mp hmem with rfl | hmem
        · exact ⟨loc, [], rest, hloc, hk.1, by simp, by simp⟩
        · obtain ⟨l, pre, post, hl, hlne, hsplit, hfirst⟩ :=
            ih (loc :: seen) h hmem
          obtain ⟨l2, hl2, _, hlc⟩ := dedupByLoc_loc rest (loc :: seen) h hmem
          have hll : l2 = l := by rw [hl] at hl2; exact (Option.some.inj hl2).symm
          subst hll
          refine ⟨l2, h0 :: pre, post, hl, hlne, by simp [hsplit], ?_⟩
          intro h2 hh2
          rcases List.mem_cons.mp hh2 with rfl | hh2
          · rw [hloc]
            intro hcontra
            exact hlc (Option.some.inj hcontra ▸ List.mem_cons_self loc seen)
          · exact hfirst h2 hh2
      · have hmem2 : h ∈ dedupByLoc seen rest := by
          simpa [dedupByLoc, hloc, hk] using hmem
        obtain ⟨l, pre, post, hl, hlne, hsplit, hfirst⟩ := ih seen h hmem2
        obtain ⟨l2, hl2, _, hlc⟩ := dedupByLoc_loc rest seen h hmem2
        have hll : l2 = l := by rw [hl] at hl2; exact (Option.some.inj hl2).symm
        subst hll
        refine ⟨l2, h0 :: pre, post, hl, hlne, by simp [hsplit], ?_⟩
        intro h2 hh2
        rcases List.mem_cons.mp hh2 with rfl | hh2
        · rw [hloc]
          intro hcontra
          have hle : loc = l2 := Option.some.inj hcontra
          subst hle
          rcases not_and_or.mp hk with hc | hc
          · exact hlne (not_not.mp hc)
          · exact hc (not_not.mp (fun hcc => hlc (by tauto)))
        · exact hfirst h2 hh2

/-- C10: the discovery loop returns a subsequence of the arriving responses
(in arrival order), keeps at most max_results of them, keeps pairwise
distinct LOCATION values, and every kept response is the first arrival
bearing its (non-empty) location. -/
theorem ssdp_discover_dedup_first_bounded (maxr : Nat) (incoming : List Hdrs) :
    (ssdp_discover maxr incoming).Sublist incoming
    ∧ (ssdp_discover maxr incoming).length ≤ maxr
    ∧ ((ssdp_discover maxr incoming).map (fun h => h.get "LOCATION")).Pairwise Ne
    ∧ ∀ h ∈ ssdp_discover maxr incoming, ∃ l pre post,
        h.get "LOCATION" = some l ∧ l ≠ "" ∧ incoming = pre ++ h :: post
        ∧ ∀ h2 ∈ pre, h2.get "LOCATION" ≠ some l := by
  have heq : ssdp_discover maxr incoming
      = (dedupByLoc [] incoming).take maxr := by
    simpa [ssdp_discover] using ssdpLoop_eq_dedup incoming maxr [] []
  refine ⟨?_, ?_, ?_, ?_⟩
  · rw [heq]
    exact ((dedupByLoc [] incoming).take_sublist maxr).trans
      (dedupByLoc_sublist incoming [])
  · rw [heq]
    simp
  · rw [heq]
    exact (dedupByLoc_pairwise incoming []).sublist
      (List.Sublist.map (fun h => h.get "LOCATION")
        ((dedupByLoc [] incoming).take_sublist maxr))
  · intro h hmem
    rw [heq] at hmem
    exact dedupByLoc_first incoming [] h
      (((dedupByLoc [] incoming).take_sublist maxr).subset hmem)
set_option maxHeartbeats 1000000 in
/-- Decoding inverts the per-character escape expansion at the head of any
continuation. -/
theorem unescList_escChar (c : Char) (l : List Char) :
    unescList (escChar c ++ l) = c :: unescList l := by
  by_cases h1 : c = '&'
  · subst h1; simp [escChar, unescList]
  by_cases h2 : c = '<'
  · subst h2; simp [escChar, unescList]
  by_cases h3 : c = '>'
  · subst h3; simp [escChar, unescList]
  by_cases h4 : c = '"'
  · subst h4; simp [escChar, unescList]
  by_cases h5 : c = Char.ofNat 39
  · subst h5; simp [escChar, unescList]
  have he : escChar c = [c] := by simp [escChar, h1, h2, h3, h4, h5]
  rw [he, List.singleton_append]
  conv_lhs => rw [unescList.eq_def]
  split
  · rename_i heq; injection heq with hh _; exact absurd hh h1
  · rename_i heq; injection heq with hh _; exact absurd hh h1
  · rename_i heq; injection heq with hh _; exact absurd hh h1
  · rename_i heq; injection heq with hh _; exact absurd hh h1
  · rename_i heq; injection heq with hh _; exact absurd hh h1
  · rename_i heq; injection heq with hh htl; rw [hh, htl]
  · rename_i heq; cases heq

/-- Decoding inverts the escape of a whole string. -/
theorem unescList_escList (l : List Char) : unescList (escList l) = l := by
  induction l with
  | nil => rfl
  | cons c rest ih =>
    rw [show escList (c :: rest) = escChar c ++ escList rest from by
      simp [escList]]
    rw [unescList_escChar, ih]

/-- Consuming an exact prefix succeeds and leaves the remainder. -/
theorem dropExact_append (pre l : List Char) : dropExact pre (pre ++ l) = some l := by
  induction pre with
  | nil => rfl
  | cons p ps ih => simp [dropExact, ih]

/-- Escape output never contains a tag opener or a double quote. -/
theorem escChar_no_markup (c x : Char) (h : x ∈ escChar c) : x ≠ '<' ∧ x ≠ '"' := by
  revert h
  unfold escChar
  split_ifs with h1 h2 h3 h4 h5 <;> intro h
  · fin_cases h <;> exact ⟨by decide, by decide⟩
  · fin_cases h <;> exact ⟨by decide, by decide⟩
  · fin_cases h <;> exact ⟨by decide, by decide⟩
  · fin_cases h <;> exact ⟨by decide, by decide⟩
  · fin_cases h <;> exact ⟨by decide, by decide⟩
  · rw [List.mem_singleton] at h
    subst h
    exact ⟨h2, h4⟩

/-- Escape output of a whole string never contains a tag opener or a double
quote. -/
theorem escList_no_markup (l : List Char) (x : Char) (h : x ∈ escList l) :
    x ≠ '<' ∧ x ≠ '"' := by
  rw [escList, List.mem_flatten] at h
  obtain ⟨m, hm, hx⟩ := h
  obtain ⟨c, _, rfl⟩ := List.mem_map.mp hm
  exact escChar_no_markup c x hx

/-- takeWhile and dropWhile split an append at the first failing element. -/
theorem takeWhile_app_cons (p : Char → Bool) (l1 : List Char) (c : Char)
    (l2 : List Char) (h1 : ∀ x ∈ l1, p x = true) (hc : p c = false) :
    (l1 ++ c :: l2).takeWhile p = l1 ∧ (l1 ++ c :: l2).dropWhile p = c :: l2 := by
  induction l1 with
  | nil => simp [List.takeWhile_cons, List.dropWhile_cons, hc]
  | cons a l ih =>
    have ha : p a = true := h1 a (List.mem_cons_self a l)
    have hrec := ih (fun x hx => h1 x (List.mem_cons_of_mem a hx))
    simp [List.takeWhile_cons, List.dropWhile_cons, ha, hrec.1, hrec.2]

/-- C9 (amended): for every title and source URI, and every MIME type free
of raw markup characters (no double quote, tag opener or ampersand — the
builder escapes title and URI but inserts the MIME type verbatim into the
protocolInfo attribute), the metadata fragment built by didl_lite_meta, read
back as XML, recovers exactly the same title, source URI and MIME type. -/
theorem didl_roundtrip (title uri mime : String)
    (hmime : ∀ c ∈ mime.data, c ≠ '"' ∧ c ≠ '<' ∧ c ≠ '&') :
    parseDidl (didl_lite_meta uri title mime) = some (title, uri, mime) := by
  have hmk : ∀ l : List Char, (String.mk l).data = l := fun _ => rfl
  have hq : (":*\">" : String).data = ':' :: '*' :: '"' :: '>' :: [] := rfl
  have hlt : ("<" : String).data = ['<'] := rfl
  have hm : didlMid.data = '<' :: didlMidT.data := by
    simp [didlMid, String.data_append, hlt]
  have hp : didlPost.data = '<' :: didlPostT.data := by
    simp [didlPost, String.data_append, hlt]
  have hdata : (didl_lite_meta uri title mime).data
      = didlPre.data ++ (escList title.data
        ++ ('<' :: (didlMidT.data
        ++ ((mime.data ++ [':', '*']) ++ ('"' :: '>' :: (escList uri.data
        ++ ('<' :: didlPostT.data))))))) := by
    simp [didl_lite_meta, htmlEscape, String.data_append, hq, hm, hp, hmk]
  have htit := takeWhile_app_cons (fun c => c != '<') (escList title.data) '<'
      (didlMidT.data ++ ((mime.data ++ [':', '*']) ++ ('"' :: '>'
        :: (escList uri.data ++ ('<' :: didlPostT.data)))))
      (fun x hx => by simpa using (escList_no_markup title.data x hx).1)
      (by decide)
  have huri := takeWhile_app_cons (fun c => c != '<') (escList uri.data) '<'
      didlPostT.data
      (fun x hx => by simpa using (escList_no_markup uri.data x hx).1)
      (by decide)
  have hattr := takeWhile_app_cons (fun c => c != '"') (mime.data ++ [':', '*'])
      '"' ('>' :: (escList uri.data ++ ('<' :: didlPostT.data)))
      (fun x hx => by
        rcases List.mem_append.mp hx with hx | hx
        · simpa using (hmime x hx).1
        · fin_cases hx <;> decide)
      (by decide)
  have hall2 : (mime.data ++ [':', '*']).all (fun c => c != '<' && c != '&')
      = true := by
    rw [List.all_eq_true]
    intro x hx
    rcases List.mem_append.mp hx with hx | hx
    · have := hmime x hx
      simp [this.2.1, this.2.2]
    · fin_cases hx <;> decide
  have hlen : (mime.data ++ [':', '*']).length - 2 = mime.data.length := by
    simp
  have hdrop : (mime.data ++ [':', '*']).drop mime.data.length = [':', '*'] :=
    List.drop_left _ _
  have htake : (mime.data ++ [':', '*']).take mime.data.length = mime.data :=
    List.take_left _ _
  have hif : ((mime.data ++ [':', '*']).all (fun c => c != '<' && c != '&')
      && decide ((mime.data ++ [':', '*']).drop
          ((mime.data ++ [':', '*']).length - 2) = [':', '*'])
      && decide (2 ≤ (mime.data ++ [':', '*']).length)) = true := by
    rw [hall2, hlen, hdrop]
    simp
  have hself : ∀ p : List Char, dropExact p p = some [] := fun p => by
    simpa using dropExact_append p []
  have hdemid : ∀ X : List Char,
      dropExact didlMid.data ('<' :: (didlMidT.data ++ X)) = some X := fun X => by
    rw [hm]; simp [dropExact, dropExact_append]
  have hdepost : dropExact didlPost.data ('<' :: didlPostT.data) = some [] := by
    rw [hp]; simp [dropExact, hself]
  have hdequot : ∀ X : List Char, dropExact ['"', '>'] ('"' :: '>' :: X) = some X :=
    fun X => by simp [dropExact]
  unfold parseDidl
  rw [hdata, dropExact_append]
  have hif2 : (((mime.data ++ [':', '*']).all fun c => c != '<' && c != '&')
      && decide ((mime.data ++ [':', '*']).drop mime.data.length = [':', '*'])
      && decide (2 ≤ (mime.data ++ [':', '*']).length)) = true := by
    rw [hall2, hdrop]
    simp
  simp only [htit.1, htit.2, hdemid, hattr.1, hattr.2, hif, if_true,
    hlen, htake, hdequot, huri.1, huri.2, hdepost, unescList_escList]
  rw [hif2]
  rfl

/-- Witness for C9 at a concrete title containing every escaped character. -/
theorem didl_roundtrip_witness :
    (∀ c ∈ ("audio/mpeg" : String).data, c ≠ '"' ∧ c ≠ '<' ∧ c ≠ '&')
    ∧ parseDidl (didl_lite_meta "http://h/a.mp3?x=1&y=2" "A & B <Bell>"
        "audio/mpeg")
      = some ("A & B <Bell>", "http://h/a.mp3?x=1&y=2", "audio/mpeg") :=
  ⟨by decide, didl_roundtrip "A & B <Bell>" "http://h/a.mp3?x=1&y=2"
    "audio/mpeg" (by decide)⟩

set_option maxRecDepth 10000 in
/-- Counterexample to C9 as stated: a MIME type containing a double quote
breaks the attribute framing, so the fragment does not read back. -/
theorem didl_roundtrip_counterexample :
    parseDidl (didl_lite_meta "u" "t" "\"") ≠ some ("t", "u", "\"") := by
  decide

/-- The two possible outcomes of the stop helper. -/
theorem stopDev_cases (env : Env) (t : Nat) (d : Device) :
    stopDev env t d = (.error (.callFail t (.stopCall d)), t + 1, [.stopCall d])
    ∨ stopDev env t d = (.ok (), t + 1, [.stopCall d]) := by
  by_cases h : (env t (SCall.stopCall d)).err = true
  · left; simp [stopDev, callNet, h]
  · right; simp [stopDev, callNet, h]

/-- The two possible outcomes of the play helper. -/
theorem playDev_cases (env : Env) (t : Nat) (d : Device) :
    playDev env t d = (.error (.callFail t (.playCall d)), t + 1, [.playCall d])
    ∨ playDev env t d = (.ok (), t + 1, [.playCall d]) := by
  by_cases h : (env t (SCall.playCall d)).err = true
  · left; simp [playDev, callNet, h]
  · right; simp [playDev, callNet, h]

/-- The two possible outcomes of the set_uri helper. -/
theorem set_uri_cases (env : Env) (t : Nat) (d : Device) (uri meta : String) :
    set_uri env t d uri meta
      = (.error (.callFail t (.setUriCall d uri meta)), t + 1, [.setUriCall d uri meta])
    ∨ set_uri env t d uri meta = (.ok (), t + 1, [.setUriCall d uri meta]) := by
  by_cases h : (env t (SCall.setUriCall d uri meta)).err = true
  · left; simp [set_uri, callNet, h]
  · right; simp [set_uri, callNet, h]

/-- The three possible outcomes of the set_volume helper: skipped without a
rendering control URL, raised, or transmitted with the clamped volume. -/
theorem set_volume_cases (env : Env) (t : Nat) (d : Device) (v : Int) :
    (d.rendering_control_url = "" ∧ set_volume env t d v = (.ok (), t, []))
    ∨ set_volume env t d v
      = (.error (.callFail t (.setVolumeCall d (max 0 (min 100 v)))), t + 1,
         [.setVolumeCall d (max 0 (min 100 v))])
    ∨ set_volume env t d v
      = (.ok (), t + 1, [.setVolumeCall d (max 0 (min 100 v))]) := by
  by_cases hr : d.rendering_control_url = ""
  · exact Or.inl ⟨hr, by simp [set_volume, hr]⟩
  · by_cases h : (env t (SCall.setVolumeCall d (max 0 (min 100 v)))).err = true
    · exact Or.inr (Or.inl (by simp [set_volume, callNet, hr, h]))
    · exact Or.inr (Or.inr (by simp [set_volume, callNet, hr, h]))

/-- The three possible outcomes of the get_volume helper. -/
theorem get_volume_cases (env : Env) (t : Nat) (d : Device) :
    (d.rendering_control_url = "" ∧ get_volume env t d = (.ok 0, t, []))
    ∨ get_volume env t d
      = (.error (.callFail t (.getVolumeCall d)), t + 1, [.getVolumeCall d])
    ∨ get_volume env t d
      = (.ok (env t (.getVolumeCall d)).vol, t + 1, [.getVolumeCall d]) := by
  by_cases hr : d.rendering_control_url = ""
  · exact Or.inl ⟨hr, by simp [get_volume, hr]⟩
  · by_cases h : (env t (SCall.getVolumeCall d)).err = true
    · exact Or.inr (Or.inl (by simp [get_volume, callNet, hr, h]))
    · exact Or.inr (Or.inr (by simp [get_volume, callNet, hr, h]))

/-- The three possible outcomes of the transport-state reader. -/
theorem get_transport_state_cases (env : Env) (t : Nat) (d : Device) :
    get_transport_state env t d
      = (.error (.callFail t (.getTransportInfo d)), t + 1, [.getTransportInfo d])
    ∨ get_transport_state env t d
      = (.error (.callFail (t + 1) (.getMediaInfo d)), t + 2,
         [.getTransportInfo d, .getMediaInfo d])
    ∨ get_transport_state env t d
      = (.ok ⟨upperStr (env t (.getTransportInfo d)).ts.state,
              (env (t + 1) (.getMediaInfo d)).ts.uri,
              (env (t + 1) (.getMediaInfo d)).ts.meta⟩, t + 2,
         [.getTransportInfo d, .getMediaInfo d]) := by
  by_cases h1 : (env t (SCall.getTransportInfo d)).err = true
  · left; simp [get_transport_state, callNet, h1]
  · by_cases h2 : (env (t + 1) (SCall.getMediaInfo d)).err = true
    · exact Or.inr (Or.inl (by simp [get_transport_state, callNet, h1, h2]))
    · exact Or.inr (Or.inr (by simp [get_transport_state, callNet, h1, h2]))

theorem startOne_events (env : Env) (urls : List (String × String))
    (volume : ℚ) (title mime : String) (t : Nat) (dev : Device) :
    ∀ x ∈ (startOne env urls volume title mime t dev).2.2,
      x = SCall.stopCall dev
      ∨ x = SCall.setVolumeCall dev (max 0 (min 100 (pyInt (max 0 (min 1 volume)
          * ((dev.volume_range.2 : ℚ) - (dev.volume_range.1 : ℚ))
          + (dev.volume_range.1 : ℚ)))))
      ∨ x = SCall.setUriCall dev (dGet urls dev.id)
          (didl_lite_meta (dGet urls dev.id) title mime)
      ∨ x = SCall.playCall dev := by
  intro x hx
  unfold startOne at hx
  rcases stopDev_cases env t dev with hs | hs
  · simp only [hs] at hx
    simp at hx; tauto
  · rcases set_volume_cases env (t + 1) dev (pyInt (max 0 (min 1 volume)
        * ((dev.volume_range.2 : ℚ) - (dev.volume_range.1 : ℚ))
        + (dev.volume_range.1 : ℚ))) with ⟨hr, hv⟩ | hv | hv
    · rcases set_uri_cases env (t + 1) dev (dGet urls dev.id)
          (didl_lite_meta (dGet urls dev.id) title mime) with hu | hu
      · simp only [hs, hv, hu] at hx
        simp at hx; tauto
      · rcases playDev_cases env (t + 1 + 1) dev with hq | hq <;>
          (simp only [hs, hv, hu, hq] at hx; simp at hx; tauto)
    · simp only [hs, hv] at hx
      simp at hx; tauto
    · rcases set_uri_cases env (t + 1 + 1) dev (dGet urls dev.id)
          (didl_lite_meta (dGet urls dev.id) title mime) with hu | hu
      · simp only [hs, hv, hu] at hx
        simp at hx; tauto
      · rcases playDev_cases env (t + 1 + 1 + 1) dev with hq | hq <;>
          (simp only [hs, hv, hu, hq] at hx; simp at hx; tauto)
/-- Lift of startOne_events to the start phase: any setVolume event belongs
to one of the target devices and carries the code's clamped clip volume. -/
theorem startPhase_setVolume (env : Env) (urls : List (String × String))
    (volume : ℚ) (title mime : String) :
    ∀ (devs : List Device) (t : Nat) (d : Device) (v : Int),
      SCall.setVolumeCall d v ∈ (startPhase env urls volume title mime t devs).2.2 →
      d ∈ devs ∧ v = max 0 (min 100 (pyInt (max 0 (min 1 volume)
        * ((d.volume_range.2 : ℚ) - (d.volume_range.1 : ℚ))
        + (d.volume_range.1 : ℚ)))) := by
  intro devs
  induction devs with
  | nil => intro t d v h; simp [startPhase] at h
  | cons dev rest ih =>
    intro t d v h
    unfold startPhase at h
    rcases h1 : startOne env urls volume title mime t dev with ⟨r1, t1, tr1⟩
    simp only [h1] at h
    have hone : ∀ x ∈ tr1, x = SCall.stopCall dev
        ∨ x = SCall.setVolumeCall dev (max 0 (min 100 (pyInt (max 0 (min 1 volume)
            * ((dev.volume_range.2 : ℚ) - (dev.volume_range.1 : ℚ))
            + (dev.volume_range.1 : ℚ)))))
        ∨ x = SCall.setUriCall dev (dGet urls dev.id)
            (didl_lite_meta (dGet urls dev.id) title mime)
        ∨ x = SCall.playCall dev := by
      intro x hx
      exact startOne_events env urls volume title mime t dev x
        (by rw [h1]; exact hx)
    cases r1 with
    | error e =>
      simp only [] at h
      rcases hone _ h with hc | hc | hc | hc <;> simp_all
    | ok u =>
      simp only [] at h
      rcases List.mem_append.mp h with hmem | hmem
      · rcases hone _ hmem with hc | hc | hc | hc <;> simp_all
      · obtain ⟨hd, hv⟩ := ih t1 d v hmem
        exact ⟨List.mem_cons_of_mem dev hd, hv⟩

/-- C2 (amended): for every device with volume range [min, max] and every
volume fraction f in [0, 1], the volume transmitted to that device during
the start phase of the play operation equals the truncation (Python int, not
round) of f * (max - min) + min, clamped by set_volume to [0, 100]; whenever
0 <= min <= max <= 100 the transmitted value lies within [min, max]. -/
theorem start_phase_volume_formula (env : Env) (urls : List (String × String))
    (title mime : String) (f : ℚ) (t : Nat) (devs : List Device) (d : Device)
    (v : Int) (hf0 : 0 ≤ f) (hf1 : f ≤ 1)
    (hmem : SCall.setVolumeCall d v ∈ (startPhase env urls f title mime t devs).2.2) :
    v = max 0 (min 100 (pyInt (f * ((d.volume_range.2 : ℚ)
        - (d.volume_range.1 : ℚ)) + (d.volume_range.1 : ℚ))))
    ∧ (0 ≤ d.volume_range.1 → d.volume_range.1 ≤ d.volume_range.2 →
        d.volume_range.2 ≤ 100 →
        d.volume_range.1 ≤ v ∧ v ≤ d.volume_range.2) := by
  obtain ⟨-, hv⟩ := startPhase_setVolume env urls f title mime devs t d v hmem
  have hclamp : max 0 (min 1 f) = f := by
    rw [min_eq_right hf1, max_eq_right hf0]
  rw [hclamp] at hv
  refine ⟨hv, ?_⟩
  intro hm0 hmM hM100
  have hm0q : (0 : ℚ) ≤ (d.volume_range.1 : ℚ) := by exact_mod_cast hm0
  have hmMq : (d.volume_range.1 : ℚ) ≤ (d.volume_range.2 : ℚ) := by
    exact_mod_cast hmM
  have hsub : (0 : ℚ) ≤ (d.volume_range.2 : ℚ) - (d.volume_range.1 : ℚ) := by
    linarith
  have hq0 : (d.volume_range.1 : ℚ) ≤ f * ((d.volume_range.2 : ℚ)
      - (d.volume_range.1 : ℚ)) + (d.volume_range.1 : ℚ) := by
    nlinarith
  have hq1 : f * ((d.volume_range.2 : ℚ) - (d.volume_range.1 : ℚ))
      + (d.volume_range.1 : ℚ) ≤ (d.volume_range.2 : ℚ) := by
    nlinarith
  have hnneg : ¬ (f * ((d.volume_range.2 : ℚ) - (d.volume_range.1 : ℚ))
      + (d.volume_range.1 : ℚ) < 0) := by
    push_neg
    linarith
  rw [pyInt, if_neg hnneg] at hv
  have hfl1 : d.volume_range.1 ≤ ⌊f * ((d.volume_range.2 : ℚ)
      - (d.volume_range.1 : ℚ)) + (d.volume_range.1 : ℚ)⌋ :=
    Int.le_floor.mpr hq0
  have hfl2 : ⌊f * ((d.volume_range.2 : ℚ) - (d.volume_range.1 : ℚ))
      + (d.volume_range.1 : ℚ)⌋ ≤ d.volume_range.2 := by
    have := Int.floor_le_floor hq1
    rwa [Int.floor_intCast] at this
  subst hv
  constructor <;> omega

/-- Witness for C2 at fraction 0 on a device with range (0, 100). -/
theorem start_phase_volume_formula_witness :
    ((0 : ℚ) ≤ 0) ∧ ((0 : ℚ) ≤ 1)
    ∧ SCall.setVolumeCall devW vW
      ∈ (startPhase envW0 [("W", "u")] 0 "t" "m" 0 [devW]).2.2
    ∧ (vW = max 0 (min 100 (pyInt ((0 : ℚ) * ((devW.volume_range.2 : ℚ)
          - (devW.volume_range.1 : ℚ)) + (devW.volume_range.1 : ℚ))))
       ∧ (0 ≤ devW.volume_range.1 → devW.volume_range.1 ≤ devW.volume_range.2
          → devW.volume_range.2 ≤ 100
          → devW.volume_range.1 ≤ vW ∧ vW ≤ devW.volume_range.2)) := by
  have htr : (startPhase envW0 [("W", "u")] 0 "t" "m" 0 [devW]).2.2
      = [SCall.stopCall devW, SCall.setVolumeCall devW vW,
         SCall.setUriCall devW "u" (didl_lite_meta "u" "t" "m"),
         SCall.playCall devW] := rfl
  have hmem : SCall.setVolumeCall devW vW
      ∈ (startPhase envW0 [("W", "u")] 0 "t" "m" 0 [devW]).2.2 := by
    rw [htr]; simp
  have hconc := start_phase_volume_formula envW0 [("W", "u")] "t" "m" 0 0
    [devW] devW vW (le_refl 0) (by norm_num) (by rw [vW] at hmem ⊢; exact hmem)
  refine ⟨le_refl 0, by norm_num, hmem, ?_, ?_⟩
  · rw [vW]; exact hconc.1
  · rw [vW]; exact hconc.2

/-- Counterexample to C2 as stated: with fraction 7/1000 on range (0, 100)
the code transmits int(0.7) = 0 while round(0.7) = 1: the transmitted volume
is the truncation, not the rounding, of f * (max - min) + min. -/
theorem start_phase_volume_formula_counterexample :
    (startPhase envW0 [("W", "u")] (7 / 1000) "t" "m" 0 [devW]).2.2
      = [SCall.stopCall devW, SCall.setVolumeCall devW 0,
         SCall.setUriCall devW "u" (didl_lite_meta "u" "t" "m"),
         SCall.playCall devW]
    ∧ round ((7 / 1000 : ℚ) * ((devW.volume_range.2 : ℚ)
        - (devW.volume_range.1 : ℚ))) + devW.volume_range.1 = 1 := by
  have hc2 : (devW.volume_range.2 : ℚ) = 100 := by simp [devW]
  have hc1 : (devW.volume_range.1 : ℚ) = 0 := by simp [devW]
  constructor
  · have hv : max 0 (min 100 (pyInt (max 0 (min 1 ((7 : ℚ) / 1000))
        * ((devW.volume_range.2 : ℚ) - (devW.volume_range.1 : ℚ))
        + (devW.volume_range.1 : ℚ)))) = 0 := by
      rw [hc2, hc1, min_eq_right (by norm_num : (7 : ℚ) / 1000 ≤ 1),
        max_eq_right (by norm_num : (0 : ℚ) ≤ 7 / 1000)]
      have harg : (7 : ℚ) / 1000 * (100 - 0) + 0 = 7 / 10 := by norm_num
      rw [harg, pyInt, if_neg (by norm_num)]
      norm_num [Int.floor_eq_iff]
    have htr : (startPhase envW0 [("W", "u")] (7 / 1000) "t" "m" 0 [devW]).2.2
        = [SCall.stopCall devW,
           SCall.setVolumeCall devW (max 0 (min 100 (pyInt (max 0
             (min 1 ((7 : ℚ) / 1000))
             * ((devW.volume_range.2 : ℚ) - (devW.volume_range.1 : ℚ))
             + (devW.volume_range.1 : ℚ))))),
           SCall.setUriCall devW "u" (didl_lite_meta "u" "t" "m"),
           SCall.playCall devW] := rfl
    rw [htr, hv]
  · rw [hc2, hc1]
    have harg : (7 : ℚ) / 1000 * (100 - 0) = 7 / 10 := by norm_num
    rw [harg, round_eq]
    have : (7 : ℚ) / 10 + 1 / 2 = 6 / 5 := by norm_num
    rw [this]
    norm_num [Int.floor_eq_iff]
    simp [devW]

/-- A device actually built by load_device_info passed the control-URL check
and carries the reported MAC text as its identifier. -/
theorem load_device_info_ok (location : String)
    (fetch : Except LoadError DeviceDescription)
    (vrResp : String → Except UpnpSoapError VolumeRangeDoc)
    (hostIp : String → String) (d : Device)
    (h : load_device_info location fetch vrResp hostIp = .ok (some d)) :
    d.av_transport_control_url ≠ "" ∧ d.rendering_control_url ≠ ""
    ∧ d.id = d.mac_addr := by
  cases fetch with
  | error e => simp [load_device_info] at h
  | ok desc =>
    simp only [load_device_info] at h
    rcases hsc : scanServices (baseOf location) desc.services with ⟨oav, orc⟩
    rw [hsc] at h
    cases oav with
    | none => simp at h
    | some av =>
      cases orc with
      | none => simp at h
      | some rc =>
        simp only [] at h
        by_cases he : av = "" ∨ rc = ""
        · rw [if_pos he] at h
          cases h
        · rw [if_neg he] at h
          push_neg at he
          cases hvr : get_volume_range (vrResp rc) with
          | error e => rw [hvr] at h; cases h
          | ok range =>
            rw [hvr] at h
            have hd := (Except.ok.inj h)
            have hd2 := Option.some.inj hd
            subst hd2
            exact ⟨he.1, he.2, rfl⟩

/-- C7 (amended): every Device placed in the inventory by the controller
constructor resolved both required services (both control URLs are
non-empty) and has its identifier equal to the device-reported MAC address
text; the identifier may be empty or duplicated and min <= max is not
enforced on the reported volume range. -/
theorem controller_inventory_urls (incoming : List Hdrs)
    (fetch : String → Except LoadError DeviceDescription)
    (vrResp : String → Except UpnpSoapError VolumeRangeDoc)
    (hostIp : String → String) (devs : List Device)
    (h : SonosController_init incoming fetch vrResp hostIp = .ok devs) :
    ∀ d ∈ devs, d.av_transport_control_url ≠ ""
      ∧ d.rendering_control_url ≠ "" ∧ d.id = d.mac_addr := by
  unfold SonosController_init at h
  revert h
  generalize ssdp_discover 25 incoming = responses
  induction responses generalizing devs with
  | nil =>
    intro h d hd
    unfold initappend at h
    have : devs = [] := (Except.ok.inj h).symm
    subst this
    cases hd
  | cons h0 rest ih =>
    intro h d hd
    unfold initappend at h
    cases hloc : h0.get "LOCATION" with
    | none => rw [hloc] at h; exact ih devs h d hd
    | some loc =>
      rw [hloc] at h
      simp only [] at h
      by_cases hemp : loc = ""
      · rw [if_pos hemp] at h
        exact ih devs h d hd
      · rw [if_neg hemp] at h
        cases hld : load_device_info loc (fetch loc) vrResp hostIp with
        | error e => rw [hld] at h; cases h
        | ok od =>
          rw [hld] at h
          cases od with
          | none => exact ih devs h d hd
          | some d0 =>
            simp only [] at h
            cases hrest : initappend fetch vrResp hostIp rest with
            | error e => rw [hrest] at h; cases h
            | ok ds =>
              rw [hrest] at h
              have : devs = d0 :: ds := (Except.ok.inj h).symm
              subst this
              rcases List.mem_cons.mp hd with rfl | hd2
              · exact load_device_info_ok loc (fetch loc) vrResp hostIp d hld
              · exact ih ds hrest d hd2

/-- Witness for C7 on a concrete two-location discovery. -/
theorem controller_inventory_urls_witness :
    SonosController_init [hdrA, hdrB] fetchC7 vrC7 hostC7
      = .ok [devC7a, devC7b]
    ∧ ∀ d ∈ [devC7a, devC7b], d.av_transport_control_url ≠ ""
      ∧ d.rendering_control_url ≠ "" ∧ d.id = d.mac_addr :=
  ⟨rfl,
   controller_inventory_urls [hdrA, hdrB] fetchC7 vrC7 hostC7 [devC7a, devC7b]
     rfl⟩

/-- Counterexample to C7 as stated: the same concrete discovery yields an
inventory whose two devices both have the empty identifier (the descriptions
lack a MACAddress element, and nothing is validated), the identifiers
collide, and the device-reported volume range has min > max. -/
theorem controller_inventory_invariant_counterexample :
    SonosController_init [hdrA, hdrB] fetchC7 vrC7 hostC7
      = .ok [devC7a, devC7b]
    ∧ devC7a.id = "" ∧ devC7b.id = devC7a.id
    ∧ devC7a.volume_range.2 < devC7a.volume_range.1 :=
  ⟨rfl, rfl, rfl, by decide⟩

/-- One step of the restore loop: the head device is restored (its attempt
runs to its own completion or failure) and the loop continues on the tail
from the clock the attempt reached, whether or not the attempt failed. -/
theorem restorePhase_cons (env : Env) (t2 : Nat) (p : Device × Prev)
    (ps : List (Device × Prev)) :
    restorePhase env t2 (p :: ps)
      = ((restorePhase env (restoreOneCore env t2 p).2.1 ps).1,
         (restoreOneCore env t2 p).2.2
           ++ (restorePhase env (restoreOneCore env t2 p).2.1 ps).2) := rfl

/-- The restoration attempt of any device with a rendering control URL
begins by transmitting the snapshotted volume (clamped by set_volume). -/
theorem restoreOneCore_head (env : Env) (t2 : Nat) (d : Device) (prev : Prev)
    (hrd : d.rendering_control_url ≠ "") :
    ∃ rest, (restoreOneCore env t2 (d, prev)).2.2
      = SCall.setVolumeCall d (max 0 (min 100 prev.vol)) :: rest := by
  rcases set_volume_cases env t2 d prev.vol with ⟨hr0, _⟩ | hv | hv
  · exact absurd hr0 hrd
  · exact ⟨[], by simp [restoreOneCore, hv]⟩
  · by_cases hu0 : prev.state.uri = ""
    · exact ⟨[], by simp [restoreOneCore, hv, hu0]⟩
    · rcases set_uri_cases env (t2 + 1) d prev.state.uri prev.state.meta
        with hu | hu
      · exact ⟨[.setUriCall d prev.state.uri prev.state.meta],
          by simp [restoreOneCore, hv, hu0, hu]⟩
      · by_cases hp : prev.state.playing = true
        · rcases playDev_cases env (t2 + 1 + 1) d with hq | hq <;>
            exact ⟨[.setUriCall d prev.state.uri prev.state.meta,
              .playCall d], by simp [restoreOneCore, hv, hu0, hu, hp, hq]⟩
        · rcases stopDev_cases env (t2 + 1 + 1) d with hq | hq <;>
            exact ⟨[.setUriCall d prev.state.uri prev.state.meta,
              .stopCall d], by simp [restoreOneCore, hv, hu0, hu, hp, hq]⟩

/-- C1: on a non-empty target list with a successful snapshot, any completed
run of the play operation decomposes as snapshot, main phases (start and the
two waits), then restoration: the restore phase runs on every exit path of
the try block, in snapshot order over the snapshotted devices (the zip of
the target devices with their snapshots); an exception of the main phases is
re-raised only after the restore trace, the trace of the whole restore loop;
a failing device restoration is caught (restorePhase_cons continues on the
tail regardless of the head attempt failing) and every device with a
rendering URL has its restoration attempted (its volume restore is
transmitted first). -/
theorem play_restores_on_every_exit (env : Env) (fuel : Nat)
    (inventory : List Device) (urls : List (String × String)) (f : ℚ)
    (title mime : String) (sts : Nat) (prevs : List Prev) (out : Run Int)
    (hval : ¬ (f < 0 ∨ f > 1))
    (_hne : inventory.filter (fun d => dHasKey urls d.id) ≠ [])
    (hsnap : (snapshotPhase env 0 (inventory.filter (fun d => dHasKey urls d.id))).1
      = .ok prevs)
    (hrun : play_url_per_device env fuel inventory urls f title mime sts = some out) :
    ∃ m : Run Unit,
      mainPhases env (inventory.filter (fun d => dHasKey urls d.id)) urls f
          title mime sts fuel
          (snapshotPhase env 0 (inventory.filter (fun d => dHasKey urls d.id))).2.1
        = some m
      ∧ out.2.2
          = (snapshotPhase env 0 (inventory.filter (fun d => dHasKey urls d.id))).2.2
            ++ m.2.2
            ++ (restorePhase env m.2.1
                ((inventory.filter (fun d => dHasKey urls d.id)).zip prevs)).2
      ∧ (∀ e, m.1 = .error e → out.1 = .error e)
      ∧ (∀ (t2 : Nat) (p : Device × Prev) (ps : List (Device × Prev)),
          restorePhase env t2 (p :: ps)
            = ((restorePhase env (restoreOneCore env t2 p).2.1 ps).1,
               (restoreOneCore env t2 p).2.2
                 ++ (restorePhase env (restoreOneCore env t2 p).2.1 ps).2))
      ∧ (∀ (t2 : Nat) (d : Device) (prev : Prev), d.rendering_control_url ≠ "" →
          ∃ rest, (restoreOneCore env t2 (d, prev)).2.2
            = SCall.setVolumeCall d (max 0 (min 100 prev.vol)) :: rest) := by
  have hsnap2 : snapshotPhase env 0 (inventory.filter (fun d => dHasKey urls d.id))
      = (.ok prevs,
         (snapshotPhase env 0 (inventory.filter (fun d => dHasKey urls d.id))).2.1,
         (snapshotPhase env 0 (inventory.filter (fun d => dHasKey urls d.id))).2.2) := by
    conv_lhs => rw [show snapshotPhase env 0 (inventory.filter (fun d => dHasKey urls d.id))
      = ((snapshotPhase env 0 (inventory.filter (fun d => dHasKey urls d.id))).1,
         (snapshotPhase env 0 (inventory.filter (fun d => dHasKey urls d.id))).2.1,
         (snapshotPhase env 0 (inventory.filter (fun d => dHasKey urls d.id))).2.2) from rfl]
    rw [hsnap]
  unfold play_url_per_device at hrun
  rw [if_neg hval] at hrun
  simp only [] at hrun
  rw [hsnap2] at hrun
  simp only [] at hrun
  cases hm : mainPhases env (inventory.filter (fun d => dHasKey urls d.id)) urls
      f title mime sts fuel
      (snapshotPhase env 0 (inventory.filter (fun d => dHasKey urls d.id))).2.1 with
  | none => rw [hm] at hrun; cases hrun
  | some m =>
    rw [hm] at hrun
    rcases m with ⟨rm, tm, trm⟩
    cases rm with
    | error e0 =>
      have hout : out = (.error e0,
          (restorePhase env tm
            ((inventory.filter (fun d => dHasKey urls d.id)).zip prevs)).1,
          (snapshotPhase env 0 (inventory.filter (fun d => dHasKey urls d.id))).2.2
            ++ trm
            ++ (restorePhase env tm
                ((inventory.filter (fun d => dHasKey urls d.id)).zip prevs)).2) :=
        (Option.some.inj hrun).symm
      refine ⟨(.error e0, tm, trm), rfl, by rw [hout], ?_,
        restorePhase_cons env, restoreOneCore_head env⟩
      intro e he
      have he2 : (Except.error e0 : Except PyErr Unit) = .error e := he
      cases he2
      rw [hout]
    | ok u =>
      have hout : out = (.ok
          ((((restorePhase env tm
              ((inventory.filter (fun d => dHasKey urls d.id)).zip prevs)).1 : Nat) : Int)
            - (((snapshotPhase env 0
                (inventory.filter (fun d => dHasKey urls d.id))).2.1 : Nat) : Int)),
          (restorePhase env tm
            ((inventory.filter (fun d => dHasKey urls d.id)).zip prevs)).1,
          (snapshotPhase env 0 (inventory.filter (fun d => dHasKey urls d.id))).2.2
            ++ trm
            ++ (restorePhase env tm
                ((inventory.filter (fun d => dHasKey urls d.id)).zip prevs)).2) :=
        (Option.some.inj hrun).symm
      refine ⟨(.ok u, tm, trm), rfl, by rw [hout], ?_,
        restorePhase_cons env, restoreOneCore_head env⟩
      intro e he
      exact absurd he (by simp)
/-- Witness for C1: three devices, the set-source call of device 2 raises
during the start phase, and device 1 raises while its volume is being
restored.  The run completes with the start-phase error, after a restore
trace in which device 1 was attempted (and failed after its volume call)
and devices 2 and 3 were fully restored, in snapshot order. -/
theorem play_restores_on_every_exit_witness :
    (¬ ((0 : ℚ) < 0 ∨ (0 : ℚ) > 1))
    ∧ ([dW1, dW2, dW3].filter (fun d => dHasKey urlsW d.id) ≠ [])
    ∧ ((snapshotPhase envW1 0
        ([dW1, dW2, dW3].filter (fun d => dHasKey urlsW d.id))).1
      = .ok (prevsOf (snapshotPhase envW1 0
          ([dW1, dW2, dW3].filter (fun d => dHasKey urlsW d.id)))))
    ∧ (play_url_per_device envW1 1 [dW1, dW2, dW3] urlsW 0 "t" "m" 1
      = some (runOf (play_url_per_device envW1 1 [dW1, dW2, dW3] urlsW 0 "t" "m" 1)))
    ∧ ((runOf (play_url_per_device envW1 1 [dW1, dW2, dW3] urlsW 0 "t" "m" 1)).1
      = .error (.callFail 15 (.setUriCall dW2 "u2" (didl_lite_meta "u2" "t" "m"))))
    ∧ ((restorePhase envW1 16 (([dW1, dW2, dW3].filter
          (fun d => dHasKey urlsW d.id)).zip (prevsOf (snapshotPhase envW1 0
          ([dW1, dW2, dW3].filter (fun d => dHasKey urlsW d.id)))))).2
      = [.setVolumeCall dW1 5,
         .setVolumeCall dW2 5, .setUriCall dW2 "p" "pm", .playCall dW2,
         .setVolumeCall dW3 5, .setUriCall dW3 "p" "pm", .playCall dW3])
    ∧ (∃ m : Run Unit,
        mainPhases envW1 ([dW1, dW2, dW3].filter (fun d => dHasKey urlsW d.id))
            urlsW 0 "t" "m" 1 1
            (snapshotPhase envW1 0
              ([dW1, dW2, dW3].filter (fun d => dHasKey urlsW d.id))).2.1
          = some m
        ∧ (runOf (play_url_per_device envW1 1 [dW1, dW2, dW3] urlsW 0 "t" "m" 1)).2.2
            = (snapshotPhase envW1 0
                ([dW1, dW2, dW3].filter (fun d => dHasKey urlsW d.id))).2.2
              ++ m.2.2
              ++ (restorePhase envW1 m.2.1
                  (([dW1, dW2, dW3].filter (fun d => dHasKey urlsW d.id)).zip
                    (prevsOf (snapshotPhase envW1 0
                      ([dW1, dW2, dW3].filter (fun d => dHasKey urlsW d.id)))))).2
        ∧ (∀ e, m.1 = .error e →
            (runOf (play_url_per_device envW1 1 [dW1, dW2, dW3] urlsW 0 "t" "m" 1)).1
              = .error e)
        ∧ (∀ (t2 : Nat) (p : Device × Prev) (ps : List (Device × Prev)),
            restorePhase envW1 t2 (p :: ps)
              = ((restorePhase envW1 (restoreOneCore envW1 t2 p).2.1 ps).1,
                 (restoreOneCore envW1 t2 p).2.2
                   ++ (restorePhase envW1 (restoreOneCore envW1 t2 p).2.1 ps).2))
        ∧ (∀ (t2 : Nat) (d : Device) (prev : Prev), d.rendering_control_url ≠ "" →
            ∃ rest, (restoreOneCore envW1 t2 (d, prev)).2.2
              = SCall.setVolumeCall d (max 0 (min 100 prev.vol)) :: rest)) := by
  refine ⟨by norm_num, by decide, rfl, rfl, rfl, rfl, ?_⟩
  exact play_restores_on_every_exit envW1 1 [dW1, dW2, dW3] urlsW 0 "t" "m" 1
    (prevsOf (snapshotPhase envW1 0
      ([dW1, dW2, dW3].filter (fun d => dHasKey urlsW d.id))))
    (runOf (play_url_per_device envW1 1 [dW1, dW2, dW3] urlsW 0 "t" "m" 1))
    (by norm_num) (by decide) rfl rfl
/-- C4 (amended): on normal completion the play operation returns the
wall-clock seconds elapsed between the start of the start phase (immediately
after the snapshot is taken) and the completion of the restore phase: the
return expression is evaluated after the finally block, so the time spent in
the restore phase is included in the returned value. -/
theorem play_elapsed_includes_restore (env : Env) (fuel : Nat)
    (inventory : List Device) (urls : List (String × String)) (f : ℚ)
    (title mime : String) (sts : Nat) (prevs : List Prev) (r : Int)
    (tEnd : Nat) (tr : List SCall)
    (hval : ¬ (f < 0 ∨ f > 1))
    (hsnap : (snapshotPhase env 0 (inventory.filter (fun d => dHasKey urls d.id))).1
      = .ok prevs)
    (hrun : play_url_per_device env fuel inventory urls f title mime sts
      = some (.ok r, tEnd, tr)) :
    ∃ m : Run Unit,
      mainPhases env (inventory.filter (fun d => dHasKey urls d.id)) urls f
          title mime sts fuel
          (snapshotPhase env 0 (inventory.filter (fun d => dHasKey urls d.id))).2.1
        = some m
      ∧ m.1 = .ok ()
      ∧ r = ((restorePhase env m.2.1
            ((inventory.filter (fun d => dHasKey urls d.id)).zip prevs)).1 : Int)
          - ((snapshotPhase env 0
              (inventory.filter (fun d => dHasKey urls d.id))).2.1 : Int)
      ∧ tEnd = (restorePhase env m.2.1
          ((inventory.filter (fun d => dHasKey urls d.id)).zip prevs)).1 := by
  have hsnap2 : snapshotPhase env 0 (inventory.filter (fun d => dHasKey urls d.id))
      = (.ok prevs,
         (snapshotPhase env 0 (inventory.filter (fun d => dHasKey urls d.id))).2.1,
         (snapshotPhase env 0 (inventory.filter (fun d => dHasKey urls d.id))).2.2) := by
    conv_lhs => rw [show snapshotPhase env 0 (inventory.filter (fun d => dHasKey urls d.id))
      = ((snapshotPhase env 0 (inventory.filter (fun d => dHasKey urls d.id))).1,
         (snapshotPhase env 0 (inventory.filter (fun d => dHasKey urls d.id))).2.1,
         (snapshotPhase env 0 (inventory.filter (fun d => dHasKey urls d.id))).2.2) from rfl]
    rw [hsnap]
  unfold play_url_per_device at hrun
  rw [if_neg hval] at hrun
  simp only [] at hrun
  rw [hsnap2] at hrun
  simp only [] at hrun
  cases hm : mainPhases env (inventory.filter (fun d => dHasKey urls d.id)) urls
      f title mime sts fuel
      (snapshotPhase env 0 (inventory.filter (fun d => dHasKey urls d.id))).2.1 with
  | none => rw [hm] at hrun; cases hrun
  | some m =>
    rw [hm] at hrun
    rcases m with ⟨rm, tm, trm⟩
    cases rm with
    | error e0 =>
      have hout : ((Except.error e0 : Except PyErr Int),
          (restorePhase env tm
            ((inventory.filter (fun d => dHasKey urls d.id)).zip prevs)).1,
          (snapshotPhase env 0 (inventory.filter (fun d => dHasKey urls d.id))).2.2
            ++ trm
            ++ (restorePhase env tm
                ((inventory.filter (fun d => dHasKey urls d.id)).zip prevs)).2)
          = ((.ok r : Except PyErr Int), tEnd, tr) := Option.some.inj hrun
      have hfst := congrArg (fun z => z.1) hout
      simp only [] at hfst
      cases hfst
    | ok u =>
      have hout : ((Except.ok ((((restorePhase env tm
            ((inventory.filter (fun d => dHasKey urls d.id)).zip prevs)).1 : Nat) : Int)
            - (((snapshotPhase env 0
                (inventory.filter (fun d => dHasKey urls d.id))).2.1 : Nat) : Int))
            : Except PyErr Int),
          (restorePhase env tm
            ((inventory.filter (fun d => dHasKey urls d.id)).zip prevs)).1,
          (snapshotPhase env 0 (inventory.filter (fun d => dHasKey urls d.id))).2.2
            ++ trm
            ++ (restorePhase env tm
                ((inventory.filter (fun d => dHasKey urls d.id)).zip prevs)).2)
          = ((.ok r : Except PyErr Int), tEnd, tr) := Option.some.inj hrun
    

      have hfst := congrArg (fun z => z.1) hout
      have hsnd := congrArg (fun z => z.2.1) hout
      simp only [] at hfst hsnd
      refine ⟨(.ok u, tm, trm), rfl, rfl, ?_, ?_⟩
      · exact (Except.ok.inj hfst).symm
      · exact hsnd.symm

/-- Witness for C4 on a one-device run: the snapshot ends at clock 3, the
main phases end at clock 12, restoration ends at clock 15, and the operation
returns 15 - 3 = 12. -/
theorem play_elapsed_includes_restore_witness :
    (¬ ((0 : ℚ) < 0 ∨ (0 : ℚ) > 1))
    ∧ ((snapshotPhase envW0 0 ([devW].filter (fun d => dHasKey [("W", "u")] d.id))).1
      = .ok (prevsOf (snapshotPhase envW0 0
          ([devW].filter (fun d => dHasKey [("W", "u")] d.id)))))
    ∧ (play_url_per_device envW0 5 [devW] [("W", "u")] 0 "t" "m" 1
      = some (.ok 12, 15,
          (runOf (play_url_per_device envW0 5 [devW] [("W", "u")] 0 "t" "m" 1)).2.2))
    ∧ (∃ m : Run Unit,
        mainPhases envW0 ([devW].filter (fun d => dHasKey [("W", "u")] d.id))
            [("W", "u")] 0 "t" "m" 1 5
            (snapshotPhase envW0 0
              ([devW].filter (fun d => dHasKey [("W", "u")] d.id))).2.1
          = some m
        ∧ m.1 = .ok ()
        ∧ (12 : Int) = ((restorePhase envW0 m.2.1
              (([devW].filter (fun d => dHasKey [("W", "u")] d.id)).zip
                (prevsOf (snapshotPhase envW0 0
                  ([devW].filter (fun d => dHasKey [("W", "u")] d.id)))))).1 : Int)
            - ((snapshotPhase envW0 0
                ([devW].filter (fun d => dHasKey [("W", "u")] d.id))).2.1 : Int)
        ∧ (15 : Nat) = (restorePhase envW0 m.2.1
            (([devW].filter (fun d => dHasKey [("W", "u")] d.id)).zip
              (prevsOf (snapshotPhase envW0 0
                ([devW].filter (fun d => dHasKey [("W", "u")] d.id)))))).1) :=
  ⟨by norm_num, rfl, rfl,
   play_elapsed_includes_restore envW0 5 [devW] [("W", "u")] 0 "t" "m" 1
     (prevsOf (snapshotPhase envW0 0
       ([devW].filter (fun d => dHasKey [("W", "u")] d.id))))
     12 15
     ((runOf (play_url_per_device envW0 5 [devW] [("W", "u")] 0 "t" "m" 1)).2.2)
     (by norm_num) rfl rfl⟩

/-- Counterexample to C4 as stated: on the same one-device run the snapshot
ends at clock 3 (start of the start phase), the wait-for-completion phase
ends at clock 12, the final clock after restoration is 15, and the operation
returns 12 = 15 - 3: not 12 - 3 = 9 as the claim (restore excluded) would
require. -/
theorem play_elapsed_counterexample :
    (snapshotPhase envW0 0 [devW]).2.1 = 3
    ∧ (runUnitOf (mainPhases envW0 [devW] [("W", "u")] 0 "t" "m" 1 5 3)).2.1 = 12
    ∧ (runOf (play_url_per_device envW0 5 [devW] [("W", "u")] 0 "t" "m" 1)).2.1 = 15
    ∧ (runOf (play_url_per_device envW0 5 [devW] [("W", "u")] 0 "t" "m" 1)).1 = .ok 12
    ∧ ((12 : Int) ≠ 12 - 3) :=
  ⟨rfl, rfl, rfl, rfl, by decide⟩

/-- C3 evaluation at the failing input: two devices with distinct assigned
URLs, each playing its own URL.  The wait-for-completion poll compares both
observations against the url variable, which holds the last assigned URL
"u2": device 1 is marked done although it is PLAYING its own assigned URL
"u1" (for which the done condition is false), and device 2 is not. -/
theorem waitDone_marks_by_stale_url :
    lastUrl urlsW [dW1, dW2] = "u2"
    ∧ dGet urlsW dW1.id = "u1"
    ∧ (get_transport_state envU 0 dW1).1 = .ok ⟨"PLAYING", "u1", "m"⟩
    ∧ doneCond (dGet urlsW dW1.id) ⟨"PLAYING", "u1", "m"⟩ = false
    ∧ (pollRoundDone envU (lastUrl urlsW [dW1, dW2]) 0
        [(dW1, false), (dW2, false)]).1 = .ok [true, false] :=
  ⟨rfl, rfl, rfl, rfl, rfl⟩

/-- C8 evaluation at the failing input: two devices with distinct assigned
URLs each report their own assigned URL from the very first poll, yet the
wait-for-start loop never exits early: it runs all three rounds (fifteen
events: three rounds of four polls and a sleep), because the switched flag
of device 1 compares its URI "u1" against the stale url variable "u2". -/
theorem waitStart_no_early_exit :
    dGet urlsW dW1.id = "u1" ∧ dGet urlsW dW2.id = "u2"
    ∧ (get_transport_state envU 0 dW1).1 = .ok ⟨"PLAYING", "u1", "m"⟩
    ∧ (get_transport_state envU 0 dW2).1 = .ok ⟨"PLAYING", "u2", "m"⟩
    ∧ waitStartLoop envU [dW1, dW2] (lastUrl urlsW [dW1, dW2]) 0
        [false, false] 3
      = (.ok (), 15,
         [.getTransportInfo dW1, .getMediaInfo dW1,
          .getTransportInfo dW2, .getMediaInfo dW2, .sleep,
          .getTransportInfo dW1, .getMediaInfo dW1,
          .getTransportInfo dW2, .getMediaInfo dW2, .sleep,
          .getTransportInfo dW1, .getMediaInfo dW1,
          .getTransportInfo dW2, .getMediaInfo dW2, .sleep]) :=
  ⟨rfl, rfl, rfl, rfl, rfl⟩

end Sonos
